import Mathlib

/-!
Shallow embedding of the per-conversation ordered message-delivery queue of
`ccbot` (`src/ccbot/handlers/message_queue.py` and
`src/ccbot/handlers/message_sender.py`), together with proofs settling the
specification claims about it.

Conventions of the embedding:
  * Python `dict`s become association lists with `dictGet` / `dictSet` /
    `dictPop` (insertion order of unrelated keys is irrelevant to every claim).
  * `asyncio.Queue` contents become a `List MessageTask` (front = next item
    dequeued), which is how `_merge_content_tasks` itself views the queue
    after draining it.
  * The Telegram bot is an environment `Env` of per-call-site outcomes
    (`CallRes`); every chat-API call attempted by the code is recorded in an
    effect trace (`Call`), and exceptions are threaded explicitly (`Exc`).
  * Monotonic clock values and retry-after durations are `Int` seconds.
  * The SHA-1 interactive fingerprint is modelled by its exact preimage
    payload `windowId ++ "\n" ++ uiName ++ "\n" ++ trimmedText`; the code
    compares fingerprints only for equality, and equal payloads give equal
    digests.
  * `message_sender.send_with_fallback` is modelled in the default HTML mode
    (`config.use_entities_converter` is false by default per the module
    docstring; the config module is not part of the queue core).
-/

set_option maxHeartbeats 1600000

namespace CCBot

/-! ## Association-list dictionaries (model of Python `dict`) -/

def dictGet {α β : Type} [DecidableEq α] (d : List (α × β)) (k : α) : Option β :=
  match d with
  | [] => none
  | (k₀, v) :: rest => if k₀ = k then some v else dictGet rest k

def dictErase {α β : Type} [DecidableEq α] (d : List (α × β)) (k : α) :
    List (α × β) :=
  d.filter (fun p => decide (p.1 ≠ k))

def dictSet {α β : Type} [DecidableEq α] (d : List (α × β)) (k : α) (v : β) :
    List (α × β) :=
  dictErase d k ++ [(k, v)]

def dictPop {α β : Type} [DecidableEq α] (d : List (α × β)) (k : α) :
    Option β × List (α × β) :=
  (dictGet d k, dictErase d k)

theorem dictGet_dictErase {α β : Type} [DecidableEq α]
    (d : List (α × β)) (k : α) : dictGet (dictErase d k) k = none := by
  induction d with
  | nil => rfl
  | cons p rest ih =>
    by_cases h : p.1 = k
    · simpa [dictErase, List.filter_cons, h] using ih
    · simpa [dictErase, List.filter_cons, h, dictGet] using ih

theorem dictGet_dictErase_ne {α β : Type} [DecidableEq α]
    (d : List (α × β)) (k k₁ : α) (hne : k₁ ≠ k) :
    dictGet (dictErase d k) k₁ = dictGet d k₁ := by
  induction d with
  | nil => rfl
  | cons p rest ih =>
    by_cases h : p.1 = k
    · have hp : ¬ p.1 = k₁ := by
        intro hc
        exact hne (hc ▸ h)
      have herase : dictErase (p :: rest) k = dictErase rest k := by
        simp [dictErase, List.filter_cons, h]
      rw [herase, ih]
      simp [dictGet, hp]
    · have herase : dictErase (p :: rest) k = p :: dictErase rest k := by
        simp [dictErase, List.filter_cons, h]
      rw [herase]
      by_cases h₁ : p.1 = k₁
      · cases p with
        | mk pk pv => simp only [dictGet] at *; simp [h₁]
      · cases p with
        | mk pk pv =>
          simp only [dictGet] at *
          simp only [h₁, if_false] at *
          exact ih

theorem dictGet_append_of_none {α β : Type} [DecidableEq α]
    (d₁ d₂ : List (α × β)) (k : α) (h : dictGet d₁ k = none) :
    dictGet (d₁ ++ d₂) k = dictGet d₂ k := by
  induction d₁ with
  | nil => rfl
  | cons p rest ih =>
    by_cases hp : p.1 = k
    · simp [dictGet, hp] at h
    · simp only [dictGet, hp, if_false] at h
      simpa [dictGet, hp] using ih h

theorem dictGet_dictSet {α β : Type} [DecidableEq α]
    (d : List (α × β)) (k : α) (v : β) :
    dictGet (dictSet d k v) k = some v := by
  unfold dictSet
  rw [dictGet_append_of_none _ _ _ (dictGet_dictErase d k)]
  simp [dictGet]

theorem dictGet_dictSet_ne {α β : Type} [DecidableEq α]
    (d : List (α × β)) (k k₁ : α) (v : β) (hne : k₁ ≠ k) :
    dictGet (dictSet d k v) k₁ = dictGet d k₁ := by
  unfold dictSet
  cases h : dictGet (dictErase d k) k₁ with
  | none =>
    rw [dictGet_append_of_none _ _ _ h]
    rw [← dictGet_dictErase_ne d k k₁ hne, h]
    have : ¬ k = k₁ := fun hc => hne hc.symm
    simp [dictGet, this]
  | some v₀ =>
    rw [← dictGet_dictErase_ne d k k₁ hne, h]
    clear hne
    induction d with
    | nil => simp [dictGet, dictErase] at h
    | cons p rest ih =>
      by_cases hp : (decide (p.1 ≠ k) : Bool) = true
      · simp only [dictErase, List.filter_cons, hp, if_true] at h ⊢
        by_cases h₁ : p.1 = k₁
        · simp only [dictGet, h₁, if_true] at h ⊢
          simpa [dictGet, h₁] using h
        · simp only [List.cons_append, dictGet, h₁, if_false] at h ⊢
          exact ih (by simpa [dictErase] using h)
      · simp only [dictErase, List.filter_cons, hp, if_false] at h ⊢
        exact ih (by simpa [dictErase] using h)

/-! ## Task data model (`MessageTask` dataclass)

`completionFut` records whether a strict-delivery acknowledgement future is
attached (`completion_fut is not None`); the resolution of that future is
modelled separately in the worker-iteration model. -/

structure MessageTask where
  taskType : String
  text : Option String := none
  windowId : Option String := none
  parts : List String := []
  toolUseId : Option String := none
  contentType : String := "text"
  threadId : Option Int := none
  imageData : Option (List (String × List Nat)) := none
  source : Option String := none
  allowStatus : Bool := true
  completionFut : Bool := false
  deriving Repr, DecidableEq

/-- Constant `MERGE_MAX_LENGTH = 3800` from `message_queue.py`. -/
def MERGE_MAX_LENGTH : Nat := 3800

/-- Constant `FLOOD_CONTROL_MAX_WAIT = 10` from `message_queue.py`. -/
def FLOOD_CONTROL_MAX_WAIT : Int := 10

/-- Total length of a task's `parts` text, as summed by
`_merge_content_tasks` (`sum(len(p) for p in ...)`). -/
def partsLen (parts : List String) : Nat :=
  (parts.map String.length).sum

/-- Model of `_can_merge_tasks(base, candidate)`: eligibility of one queued candidate
to be folded into the just-dequeued `base` content task. -/
def can_merge_tasks (base cand : MessageTask) : Bool :=
  if base.windowId ≠ cand.windowId then false
  else if base.threadId ≠ cand.threadId then false
  else if cand.taskType ≠ "content" then false
  else if base.completionFut || cand.completionFut then false
  else if base.contentType = "tool_use" || base.contentType = "tool_result" then false
  else if cand.contentType = "tool_use" || cand.contentType = "tool_result" then false
  else true

/-- The drain loop of `_merge_content_tasks`: walk the drained queue items in
order, absorbing a maximal prefix of eligible candidates subject to the
cumulative length budget; return (absorbed parts, merge count, remaining
items put back in original order). -/
def mergeLoop (first : MessageTask) (curLen : Nat) :
    List MessageTask → List String × Nat × List MessageTask
  | [] => ([], 0, [])
  | t :: rest =>
    if can_merge_tasks first t then
      if curLen + partsLen t.parts > MERGE_MAX_LENGTH then
        ([], 0, t :: rest)
      else
        (t.parts ++ (mergeLoop first (curLen + partsLen t.parts) rest).1,
         (mergeLoop first (curLen + partsLen t.parts) rest).2.1 + 1,
         (mergeLoop first (curLen + partsLen t.parts) rest).2.2)
    else
      ([], 0, t :: rest)

/-- Model of `_merge_content_tasks(queue, first, lock)`: returns the (possibly
synthetic merged) task, the merge count, and the queue contents after the
non-merged remainder has been put back.  When at least one task is absorbed
the returned task is the synthetic `MessageTask(...)` built at the end of
the source function; note which fields it carries. -/
def merge_content_tasks (first : MessageTask) (queue : List MessageTask) :
    MessageTask × Nat × List MessageTask :=
  if (mergeLoop first (partsLen first.parts) queue).2.1 = 0 then
    (first, 0, (mergeLoop first (partsLen first.parts) queue).2.2)
  else
    ({ taskType := "content"
       windowId := first.windowId
       parts := first.parts ++ (mergeLoop first (partsLen first.parts) queue).1
       toolUseId := first.toolUseId
       contentType := first.contentType
       threadId := first.threadId },
     (mergeLoop first (partsLen first.parts) queue).2.1,
     (mergeLoop first (partsLen first.parts) queue).2.2)

theorem mergeLoop_spec (first : MessageTask) :
    ∀ (q : List MessageTask) (curLen : Nat),
      (mergeLoop first curLen q).1 =
        ((q.take (mergeLoop first curLen q).2.1).map MessageTask.parts).flatten ∧
      (mergeLoop first curLen q).2.2 = q.drop (mergeLoop first curLen q).2.1 := by
  intro q
  induction q with
  | nil => intro curLen; simp [mergeLoop]
  | cons t rest ih =>
    intro curLen
    by_cases hm : can_merge_tasks first t
    · by_cases hl : curLen + partsLen t.parts > MERGE_MAX_LENGTH
      · simp [mergeLoop, hm, hl]
      · have h := ih (curLen + partsLen t.parts)
        simp only [mergeLoop, hm, if_true, hl, if_false]
        refine ⟨?_, ?_⟩
        · rw [List.take_succ_cons, List.map_cons, List.flatten_cons, h.1]
        · rw [List.drop_succ_cons, h.2]
    · simp [mergeLoop, hm]

theorem merge_rem_eq (first : MessageTask) (q : List MessageTask) :
    (merge_content_tasks first q).2.2 =
      q.drop (merge_content_tasks first q).2.1 := by
  unfold merge_content_tasks
  by_cases h0 : (mergeLoop first (partsLen first.parts) q).2.1 = 0
  · rw [if_pos h0]
    simpa [h0] using (mergeLoop_spec first q (partsLen first.parts)).2
  · rw [if_neg h0]
    exact (mergeLoop_spec first q (partsLen first.parts)).2

theorem merge_parts_eq (first : MessageTask) (q : List MessageTask) :
    (merge_content_tasks first q).1.parts =
      first.parts ++
        ((q.take (merge_content_tasks first q).2.1).map
          MessageTask.parts).flatten := by
  unfold merge_content_tasks
  by_cases h0 : (mergeLoop first (partsLen first.parts) q).2.1 = 0
  · rw [if_pos h0]
    simp [h0]
  · rw [if_neg h0]
    simpa using (mergeLoop_spec first q (partsLen first.parts)).1

theorem merge_rem_le (first : MessageTask) (q : List MessageTask) :
    (merge_content_tasks first q).2.2.length ≤ q.length := by
  rw [merge_rem_eq]
  rw [List.length_drop]
  omega

/-- One full drain of the worker loop viewed at delivery granularity:
each element pairs the task actually handed to dispatch with the original
enqueued tasks it accounts for (the dequeued head plus any absorbed run). -/
def workerRun : List MessageTask → List (MessageTask × List MessageTask)
  | [] => []
  | t :: rest =>
    if t.taskType = "content" then
      ((merge_content_tasks t rest).1,
        t :: rest.take (merge_content_tasks t rest).2.1) ::
        workerRun (merge_content_tasks t rest).2.2
    else
      (t, [t]) :: workerRun rest
termination_by q => q.length
decreasing_by
  · exact Nat.lt_succ_of_le (by simpa using merge_rem_le t rest)
  · simp

theorem workerRun_join_bounded :
    ∀ (n : Nat) (q : List MessageTask), q.length ≤ n →
      ((workerRun q).map Prod.snd).flatten = q := by
  intro n
  induction n with
  | zero =>
    intro q hq
    have : q = [] := List.length_eq_zero.mp (Nat.le_zero.mp hq)
    simp [this, workerRun]
  | succ n ih =>
    intro q hq
    cases q with
    | nil => simp [workerRun]
    | cons t rest =>
      by_cases hc : t.taskType = "content"
      · have hrem : (merge_content_tasks t rest).2.2.length ≤ n := by
          have := merge_rem_le t rest
          simp at hq
          omega
        simp only [workerRun]
        rw [if_pos hc]
        simp only [List.map_cons, List.flatten_cons]
        rw [ih _ hrem, merge_rem_eq]
        rw [List.cons_append]
        congr 1
        exact List.take_append_drop _ rest
      · have hrest : rest.length ≤ n := by simp at hq; omega
        simp only [workerRun]
        rw [if_neg hc]
        simp only [List.map_cons, List.flatten_cons]
        rw [ih _ hrest]
        simp

/-- C1: Tasks on one conversation key are delivered in enqueue order, modulo
collapsing a run of adjacent mergeable content tasks into one delivery: the
merge routine absorbs exactly the first `count` queued items, puts the rest
back so the queue again equals the original order (the untouched suffix of
the drained items), the merged task's parts are the base's parts followed by
the absorbed tasks' parts in original order, and the worker's delivery
groups concatenate back to exactly the original enqueue sequence. -/
theorem ordering_preserved_modulo_merge :
    ∀ (first : MessageTask) (q : List MessageTask),
      ((merge_content_tasks first q).2.2 =
          q.drop (merge_content_tasks first q).2.1 ∧
        (merge_content_tasks first q).1.parts =
          first.parts ++
            ((q.take (merge_content_tasks first q).2.1).map
              MessageTask.parts).flatten) ∧
      ((workerRun q).map Prod.snd).flatten = q := by
  intro first q
  exact ⟨⟨merge_rem_eq first q, merge_parts_eq first q⟩,
    workerRun_join_bounded q.length q (le_refl _)⟩

/-! ## Worker iteration model: flood control and acknowledgement resolution

One iteration of the `while True` loop in `_message_queue_worker`, after a
task has been dequeued.  The dispatch body (content/status/probe processing)
is abstracted by its outcome: it either completes, raises `RetryAfter`
(`telegram.error.RetryAfter` with the given retry-after seconds), or raises
some other exception.  `flood` is the `_flood_until` entry for this queue
key (`none` = absent), `now` is `time.monotonic()`. -/

inductive DispatchOutcome
  | ok
  | retryAfter (secs : Int)
  | failed
  deriving Repr, DecidableEq

/-- How the worker's `finally` block resolves the task's `completion_fut`
(when one is attached): `set_result(None)` on no error, otherwise
`set_exception(task_error)` where the error may be the `RetryAfter`. -/
inductive AckRes
  | success
  | rateLimitError
  | otherError
  deriving Repr, DecidableEq

structure IterResult where
  dropped : Bool
  floodWait : Option Int
  dispatched : Bool
  newFlood : Option Int
  retrySleep : Option Int
  ack : Option AckRes
  deriving Repr, DecidableEq

/-- Outcome handling and `finally` block of one worker iteration: runs after
the flood check decided to dispatch.  `floodAfterCheck` is the `_flood_until`
entry as left by the flood check. -/
def workerDispatch (floodAfterCheck : Option Int) (now : Int)
    (task : MessageTask) (outcome : DispatchOutcome) (dropped : Bool)
    (floodWait : Option Int) : IterResult :=
  match outcome with
  | .ok =>
    { dropped := dropped, floodWait := floodWait, dispatched := true,
      newFlood := floodAfterCheck, retrySleep := none,
      ack := if task.completionFut then some .success else none }
  | .retryAfter secs =>
    if secs > FLOOD_CONTROL_MAX_WAIT then
      { dropped := dropped, floodWait := floodWait, dispatched := true,
        newFlood := some (now + secs), retrySleep := none,
        ack := if task.completionFut then some .rateLimitError else none }
    else
      { dropped := dropped, floodWait := floodWait, dispatched := true,
        newFlood := floodAfterCheck, retrySleep := some secs,
        ack := if task.completionFut then some .rateLimitError else none }
  | .failed =>
    { dropped := dropped, floodWait := floodWait, dispatched := true,
      newFlood := floodAfterCheck, retrySleep := none,
      ack := if task.completionFut then some .otherError else none }

/-- One worker iteration for a dequeued `task`: the flood check
(`_flood_until.get(key, 0)`), then dispatch with the given outcome.  A
non-content task dropped during an active ban skips dispatch entirely
(`continue`), but its `finally` block still resolves an attached ack with
success since `task_error` is `None`. -/
def workerIter (flood : Option Int) (now : Int) (task : MessageTask)
    (outcome : DispatchOutcome) : IterResult :=
  let floodEnd := flood.getD 0
  if floodEnd > 0 then
    if floodEnd - now > 0 then
      if task.taskType ≠ "content" then
        { dropped := true, floodWait := none, dispatched := false,
          newFlood := flood, retrySleep := none,
          ack := if task.completionFut then some .success else none }
      else
        workerDispatch none now task outcome false (some (floodEnd - now))
    else
      workerDispatch none now task outcome false none
  else
    workerDispatch flood now task outcome false none

/-- C3: a rate-limit signal with duration above the 10-second threshold
installs a ban until `now + duration` with no inline sleep, while a duration
at or below the threshold is slept out inline; during an active ban a
dequeued non-content task is dropped without dispatch while a dequeued
content task sleeps until ban expiry, after which the ban entry is cleared
and the content is dispatched (never dropped). -/
theorem flood_gate_policy :
    ∀ (flood : Option Int) (now : Int) (task : MessageTask)
      (outcome : DispatchOutcome) (secs : Int),
      (flood.getD 0 > 0 → flood.getD 0 - now > 0 → task.taskType ≠ "content" →
        (workerIter flood now task outcome).dropped = true ∧
        (workerIter flood now task outcome).dispatched = false) ∧
      (flood.getD 0 > 0 → flood.getD 0 - now > 0 → task.taskType = "content" →
        (workerIter flood now task outcome).dropped = false ∧
        (workerIter flood now task outcome).floodWait =
          some (flood.getD 0 - now) ∧
        (workerIter flood now task outcome).dispatched = true ∧
        (outcome = .ok → (workerIter flood now task outcome).newFlood = none)) ∧
      (flood = none → outcome = .retryAfter secs →
        (secs > FLOOD_CONTROL_MAX_WAIT →
          (workerIter flood now task outcome).newFlood = some (now + secs) ∧
          (workerIter flood now task outcome).retrySleep = none) ∧
        (secs ≤ FLOOD_CONTROL_MAX_WAIT →
          (workerIter flood now task outcome).newFlood = none ∧
          (workerIter flood now task outcome).retrySleep = some secs)) := by
  intro flood now task outcome secs
  refine ⟨?_, ?_, ?_⟩
  · intro h1 h2 h3
    simp only [workerIter]
    rw [if_pos h1, if_pos h2, if_pos h3]
    constructor <;> rfl
  · intro h1 h2 h3
    have h3not : ¬ task.taskType ≠ "content" := by simp [h3]
    simp only [workerIter]
    rw [if_pos h1, if_pos h2, if_neg h3not]
    refine ⟨?_, ?_, ?_, ?_⟩
    · cases outcome with
      | ok => rfl
      | retryAfter s =>
        simp only [workerDispatch]
        by_cases hs : s > FLOOD_CONTROL_MAX_WAIT
        · rw [if_pos hs]
        · rw [if_neg hs]
      | failed => rfl
    · cases outcome with
      | ok => rfl
      | retryAfter s =>
        simp only [workerDispatch]
        by_cases hs : s > FLOOD_CONTROL_MAX_WAIT
        · rw [if_pos hs]
        · rw [if_neg hs]
      | failed => rfl
    · cases outcome with
      | ok => rfl
      | retryAfter s =>
        simp only [workerDispatch]
        by_cases hs : s > FLOOD_CONTROL_MAX_WAIT
        · rw [if_pos hs]
        · rw [if_neg hs]
      | failed => rfl
    · intro ho
      subst ho
      rfl
  · intro hf ho
    subst hf ho
    have h0 : ¬ ((none : Option Int).getD 0 > 0) := by simp
    constructor
    · intro hs
      simp only [workerIter]
      rw [if_neg h0]
      simp only [workerDispatch]
      rw [if_pos hs]
      exact ⟨rfl, rfl⟩
    · intro hs
      have hs2 : ¬ (secs > FLOOD_CONTROL_MAX_WAIT) := by omega
      simp only [workerIter]
      rw [if_neg h0]
      simp only [workerDispatch]
      rw [if_neg hs2]
      exact ⟨rfl, rfl⟩

/-- Witness for `flood_gate_policy` at a concrete banned state and task. -/
theorem flood_gate_policy_witness :
    ((some 50 : Option Int).getD 0 > 0 ∧ (some 50 : Option Int).getD 0 - 40 > 0 ∧
      ({ taskType := "status_update" } : MessageTask).taskType ≠ "content" ∧
      (workerIter (some 50) 40 { taskType := "status_update" }
        .ok).dropped = true) ∧
    ((5 : Int) ≤ FLOOD_CONTROL_MAX_WAIT ∧
      (workerIter none 40 { taskType := "content" }
        (.retryAfter 5)).retrySleep = some 5) := by
  constructor
  · refine ⟨by decide, by decide, by decide, ?_⟩
    exact ((flood_gate_policy (some 50) 40 { taskType := "status_update" }
      .ok 0).1 (by decide) (by decide) (by decide)).1
  · refine ⟨by decide, ?_⟩
    exact (((flood_gate_policy none 40 { taskType := "content" }
      (.retryAfter 5) 5).2.2 rfl rfl).2 (by decide)).2

/-- Counterexample to C5: a content task carrying a delivery acknowledgement
whose dispatch raises `RetryAfter(30)` has its acknowledgement resolved with
the rate-limit error (the worker's `finally` block calls
`set_exception(task_error)` with the caught `RetryAfter`), so the producer
awaiting `enqueue_content_message(..., wait_for_delivery=True)` observes the
rate-limit error. -/
theorem rate_limit_surfaced_counterexample :
    (workerIter none 100
      { taskType := "content", parts := ["x"], completionFut := true }
      (.retryAfter 30)).ack = some .rateLimitError := by
  rfl

/-- C5 (amended): whenever a task carrying a delivery acknowledgement is
dispatched (no active flood ban) and its processing raises a rate-limit
signal, the acknowledgement is resolved with that rate-limit error — the
flood gate still runs (ban installed when the duration exceeds the
threshold), but the signal is also surfaced to the awaiting producer. -/
theorem rate_limit_ack_resolution :
    ∀ (now : Int) (task : MessageTask) (secs : Int),
      task.completionFut = true →
      (workerIter none now task (.retryAfter secs)).ack =
        some .rateLimitError ∧
      (secs > FLOOD_CONTROL_MAX_WAIT →
        (workerIter none now task (.retryAfter secs)).newFlood =
          some (now + secs)) := by
  intro now task secs hfut
  have h0 : ¬ ((none : Option Int).getD 0 > 0) := by simp
  constructor
  · simp only [workerIter]
    rw [if_neg h0]
    simp only [workerDispatch]
    by_cases hs : secs > FLOOD_CONTROL_MAX_WAIT
    · rw [if_pos hs]; simp [hfut]
    · rw [if_neg hs]; simp [hfut]
  · intro hs
    simp only [workerIter]
    rw [if_neg h0]
    simp only [workerDispatch]
    rw [if_pos hs]

/-- Witness for `rate_limit_ack_resolution` at a concrete task. -/
theorem rate_limit_ack_resolution_witness :
    ({ taskType := "content", parts := ["x"],
        completionFut := true } : MessageTask).completionFut = true ∧
    (workerIter none 7
      { taskType := "content", parts := ["x"], completionFut := true }
      (.retryAfter 42)).ack = some .rateLimitError := by
  refine ⟨rfl, ?_⟩
  exact (rate_limit_ack_resolution 7
    { taskType := "content", parts := ["x"], completionFut := true }
    42 rfl).1

/-! ## Global state and shutdown (`shutdown_workers`) -/

/-- The module-level dictionaries of `message_queue.py`.  Worker task
handles are modelled by their queue keys. -/
structure GlobalState where
  messageQueues : List ((Int × Int) × List MessageTask)
  queueWorkers : List (Int × Int)
  queueLocks : List (Int × Int)
  toolMsgIds : List ((String × Int × Int) × Nat)
  statusMsgInfo : List ((Int × Int) × (Nat × String × String))
  interactiveRenderState : List ((Int × Int) × (Nat × String × String))
  paneProbePending : List (Int × Int × String)
  floodUntil : List ((Int × Int) × Int)
  deriving Repr, DecidableEq

/-- Model of `shutdown_workers()`: after cancelling and awaiting every worker, the
function clears `_queue_workers`, `_message_queues`, `_queue_locks`,
`_interactive_render_state` and `_pane_probe_pending` — and nothing else. -/
def shutdown_workers (g : GlobalState) : GlobalState :=
  { g with
    queueWorkers := []
    messageQueues := []
    queueLocks := []
    interactiveRenderState := []
    paneProbePending := [] }

/-- Counterexample to C8: after `shutdown_workers` the status-message
tracking map and the tool-edit-target map are NOT empty when they were
non-empty before — the function never touches `_status_msg_info` or
`_tool_msg_ids`, contradicting "all Display State Tracker maps ... are
empty". -/
theorem shutdown_leaves_trackers_counterexample :
    ¬ ((shutdown_workers
        { messageQueues := []
          queueWorkers := [(1, 0)]
          queueLocks := []
          toolMsgIds := [(("t1", 1, 0), 7)]
          statusMsgInfo := [((1, 0), (5, "w", "s"))]
          interactiveRenderState := []
          paneProbePending := []
          floodUntil := [] }).statusMsgInfo = [] ∧
      (shutdown_workers
        { messageQueues := []
          queueWorkers := [(1, 0)]
          queueLocks := []
          toolMsgIds := [(("t1", 1, 0), 7)]
          statusMsgInfo := [((1, 0), (5, "w", "s"))]
          interactiveRenderState := []
          paneProbePending := []
          floodUntil := [] }).toolMsgIds = []) := by
  intro h
  exact absurd h.1 (by decide)

/-- C8 (amended): after shutdown every worker has been cancelled and
awaited, and the worker, queue and lock maps plus the interactive-render
tracking and the pending-probe keys are empty; the status-message tracking
map, the tool-edit-target map and the flood-ban map are left untouched. -/
theorem shutdown_clears_workers_queues :
    ∀ (g : GlobalState),
      (shutdown_workers g).queueWorkers = [] ∧
      (shutdown_workers g).messageQueues = [] ∧
      (shutdown_workers g).queueLocks = [] ∧
      (shutdown_workers g).interactiveRenderState = [] ∧
      (shutdown_workers g).paneProbePending = [] ∧
      (shutdown_workers g).statusMsgInfo = g.statusMsgInfo ∧
      (shutdown_workers g).toolMsgIds = g.toolMsgIds ∧
      (shutdown_workers g).floodUntil = g.floodUntil := by
  intro g
  exact ⟨rfl, rfl, rfl, rfl, rfl, rfl, rfl, rfl⟩

/-! ## Chat-API effect model

Every chat-API call the code attempts is recorded in a trace.  `CallRes`
is the environment's outcome for one call site: a returned message id, a
falsy return value, a "message is not modified" `BadRequest`, some other
exception, or a `RetryAfter`. -/

inductive Call
  | sendMsg
  | sendMsgPlain
  | sendMsgInter
  | editMsg (mid : Nat)
  | editMsgPlain (mid : Nat)
  | delMsg (mid : Nat)
  | sendPhotos (n : Nat)
  | typing
  deriving Repr, DecidableEq

inductive CallRes
  | ok (msgId : Nat)
  | noneRes
  | notModified
  | err
  | retryAfter (secs : Int)
  deriving Repr, DecidableEq

/-- An exception escaping a processing function to the worker loop. -/
inductive Exc
  | retry (secs : Int)
  | other
  deriving Repr, DecidableEq

/-- Per-call-site outcomes plus terminal-inspector results: the behaviour
of the external world during one processing call. -/
structure Env where
  sendRich : CallRes
  sendPlain : CallRes
  typingRes : CallRes
  statusEditRich : CallRes
  statusEditPlain : CallRes
  convertRich : CallRes
  convertPlain : CallRes
  interEdit : CallRes
  interSend : CallRes
  editToolRich : CallRes
  editToolPlain : CallRes
  photoRes : CallRes
  windowFound : Bool
  paneText : Option String
  interContent : Option (String × String)
  statusLine : Option String
  queuePending : Bool
  deriving Repr, DecidableEq

/-- The slice of the module-level Display State Tracker maps used by task
processing: `_tool_msg_ids`, `_status_msg_info`, `_interactive_render_state`. -/
structure DState where
  toolMsgIds : List ((String × Int × Int) × Nat)
  statusMsgInfo : List ((Int × Int) × (Nat × String × String))
  interactiveRender : List ((Int × Int) × (Nat × String × String))
  deriving Repr, DecidableEq

/-- Result of one modelled processing step: new tracker state, trace of
chat-API calls attempted, and an uncaught exception if one escaped. -/
structure StepRes where
  st : DState
  tr : List Call
  exc : Option Exc := none
  deriving Repr, DecidableEq

/-- Model of `message_sender.send_with_fallback` (default HTML mode): try a rich
send; a `RetryAfter` is re-raised; any other exception falls back to one
plain-text chunked send whose own failure is swallowed (`return None`).
Returns (trace, message id delivered, escaped exception). -/
def send_with_fallback (env : Env) : List Call × Option Nat × Option Exc :=
  match env.sendRich with
  | .ok m => ([.sendMsg], some m, none)
  | .noneRes => ([.sendMsg], none, none)
  | .retryAfter s => ([.sendMsg], none, some (.retry s))
  | _ =>
    match env.sendPlain with
    | .ok m => ([.sendMsg, .sendMsgPlain], some m, none)
    | .noneRes => ([.sendMsg, .sendMsgPlain], none, none)
    | .retryAfter s => ([.sendMsg, .sendMsgPlain], none, some (.retry s))
    | _ => ([.sendMsg, .sendMsgPlain], none, none)

/-- Model of `_send_task_images`: sends attached images if any; `send_photo` swallows
every exception except `RetryAfter`. -/
def send_task_images (env : Env) (task : MessageTask) :
    List Call × Option Exc :=
  match task.imageData with
  | none => ([], none)
  | some [] => ([], none)
  | some l =>
    match env.photoRes with
    | .retryAfter s => ([.sendPhotos l.length], some (.retry s))
    | _ => ([.sendPhotos l.length], none)

/-- Model of `_do_clear_status_message`: pop the tracked status message and delete it
(deletion failures are swallowed). -/
def do_clear_status_message (st : DState) (u tidOr0 : Int) :
    DState × List Call :=
  match dictGet st.statusMsgInfo (u, tidOr0) with
  | none => (st, [])
  | some info =>
    ({ st with statusMsgInfo := dictErase st.statusMsgInfo (u, tidOr0) },
     [.delMsg info.1])

/-- Model of `_clear_interactive_render`: pop the tracked interactive message and
delete it (deletion failures are swallowed); the external
`clear_interactive_tracking` call has no chat-API effect. -/
def clear_interactive_render (st : DState) (u tidOr0 : Int) :
    DState × List Call :=
  match dictGet st.interactiveRender (u, tidOr0) with
  | none => (st, [])
  | some state =>
    ({ st with interactiveRender := dictErase st.interactiveRender (u, tidOr0) },
     [.delMsg state.1])

/-- Substring containment, for the `"esc to interrupt" in text.lower()`
typing-indicator heuristic. -/
def containsSub (s sub : String) : Bool :=
  (s.splitOn sub).length > 1

/-- The typing-indicator side effect (`bot.send_chat_action`): fired when
the status text signals in-progress work; only `RetryAfter` escapes. -/
def typingAction (env : Env) (text : String) : List Call × Option Exc :=
  if containsSub text.toLower "esc to interrupt" then
    match env.typingRes with
    | .retryAfter s => ([.typing], some (.retry s))
    | _ => ([.typing], none)
  else ([], none)

/-- Model of `_do_send_status_message`: delete any orphaned tracked status message,
fire the typing heuristic, send, and track the new message on success. -/
def do_send_status_message (env : Env) (st : DState) (u tidOr0 : Int)
    (windowId text : String) : StepRes :=
  let old := dictGet st.statusMsgInfo (u, tidOr0)
  let st1 := match old with
    | none => st
    | some _ =>
      { st with statusMsgInfo := dictErase st.statusMsgInfo (u, tidOr0) }
  let tr1 : List Call := match old with
    | none => []
    | some info => [.delMsg info.1]
  let typ := typingAction env text
  match typ.2 with
  | some e => { st := st1, tr := tr1 ++ typ.1, exc := some e }
  | none =>
    let sw := send_with_fallback env
    match sw.2.2 with
    | some e => { st := st1, tr := tr1 ++ typ.1 ++ sw.1, exc := some e }
    | none =>
      match sw.2.1 with
      | some mid =>
        { st := { st1 with statusMsgInfo := dictSet st1.statusMsgInfo (u, tidOr0) (mid, windowId, text) },
          tr := tr1 ++ typ.1 ++ sw.1, exc := none }
      | none => { st := st1, tr := tr1 ++ typ.1 ++ sw.1, exc := none }

/-- Model of `_process_status_update_task`. -/
def process_status_update_task (env : Env) (st : DState) (u : Int)
    (task : MessageTask) : StepRes :=
  let wid := task.windowId.getD ""
  let tid := task.threadId.getD 0
  let statusText := task.text.getD ""
  if statusText = "" then
    let c := do_clear_status_message st u tid
    { st := c.1, tr := c.2, exc := none }
  else
    match dictGet st.statusMsgInfo (u, tid) with
    | some info =>
      let mid := info.1
      if info.2.1 ≠ wid then
        let c := do_clear_status_message st u tid
        let r := do_send_status_message env c.1 u tid wid statusText
        { st := r.st, tr := c.2 ++ r.tr, exc := r.exc }
      else if statusText = info.2.2 then
        { st := st, tr := [], exc := none }
      else
        let typ := typingAction env statusText
        match typ.2 with
        | some e => { st := st, tr := typ.1, exc := some e }
        | none =>
          match env.statusEditRich with
          | .ok _ | .noneRes =>
            { st := { st with statusMsgInfo := dictSet st.statusMsgInfo (u, tid) (mid, wid, statusText) },
              tr := typ.1 ++ [.editMsg mid], exc := none }
          | .retryAfter s =>
            { st := st, tr := typ.1 ++ [.editMsg mid], exc := some (.retry s) }
          | _ =>
            match env.statusEditPlain with
            | .ok _ | .noneRes =>
              { st := { st with statusMsgInfo := dictSet st.statusMsgInfo (u, tid) (mid, wid, statusText) },
                tr := typ.1 ++ [.editMsg mid, .editMsgPlain mid], exc := none }
            | .retryAfter s =>
              { st := st, tr := typ.1 ++ [.editMsg mid, .editMsgPlain mid],
                exc := some (.retry s) }
            | _ =>
              let st2 := { st with statusMsgInfo := dictErase st.statusMsgInfo (u, tid) }
              let r := do_send_status_message env st2 u tid wid statusText
              { st := r.st, tr := typ.1 ++ [.editMsg mid, .editMsgPlain mid] ++ r.tr,
                exc := r.exc }
    | none => do_send_status_message env st u tid wid statusText

/-- Model of `_interactive_fingerprint`: the SHA-1 digest is modelled by its preimage
payload (the code only ever compares fingerprints for equality). -/
def interactive_fingerprint (windowId uiName text : String) : String :=
  windowId ++ "\n" ++ uiName ++ "\n" ++ text.trim

/-- The send-new phase of `_process_pane_probe_task` (`bot.send_message`
with the interactive keyboard): track the new message on success; a falsy
`sent` yields "not visible"; exceptions escape to the worker. -/
def probeSend (env : Env) (st : DState) (u tid : Int) (wid fp : String)
    (trPre : List Call) : StepRes × Bool :=
  match env.interSend with
  | .ok m =>
    ({ st := { st with interactiveRender := dictSet st.interactiveRender (u, tid) (m, wid, fp) },
       tr := trPre ++ [.sendMsgInter], exc := none }, true)
  | .noneRes =>
    ({ st := st, tr := trPre ++ [.sendMsgInter], exc := none }, false)
  | .retryAfter s =>
    ({ st := st, tr := trPre ++ [.sendMsgInter],
       exc := some (.retry s) }, false)
  | _ =>
    ({ st := st, tr := trPre ++ [.sendMsgInter],
       exc := some .other }, false)

/-- The render phase of `_process_pane_probe_task` (after the no-op
fingerprint check): clear the status message, drop a stale render for a
different window, try to edit a same-window render ("not modified" counts
as success, other failures delete the stale message), else send new. -/
def probeRender (env : Env) (st : DState) (u tid : Int) (wid fp : String)
    (cur : Option (Nat × String × String)) : StepRes × Bool :=
  let c := do_clear_status_message st u tid
  let afterStale : DState × List Call × Option (Nat × String × String) :=
    match cur with
    | some cur0 =>
      if cur0.2.1 ≠ wid then
        let r := clear_interactive_render c.1 u tid
        (r.1, r.2, none)
      else (c.1, [], some cur0)
    | none => (c.1, [], none)
  let st1 := afterStale.1
  let trPre := c.2 ++ afterStale.2.1
  match afterStale.2.2 with
  | some cur0 =>
    match env.interEdit with
    | .ok _ | .noneRes =>
      ({ st := { st1 with interactiveRender := dictSet st1.interactiveRender (u, tid) (cur0.1, wid, fp) },
         tr := trPre ++ [.editMsg cur0.1], exc := none }, true)
    | .notModified =>
      ({ st := { st1 with interactiveRender := dictSet st1.interactiveRender (u, tid) (cur0.1, wid, fp) },
         tr := trPre ++ [.editMsg cur0.1], exc := none }, true)
    | .retryAfter s =>
      ({ st := st1, tr := trPre ++ [.editMsg cur0.1],
         exc := some (.retry s) }, false)
    | .err =>
      probeSend env st1 u tid wid fp
        (trPre ++ [.editMsg cur0.1, .delMsg cur0.1])
  | none => probeSend env st1 u tid wid fp trPre

/-- Model of `_process_pane_probe_task`: synchronize the interactive UI (and
optionally the status line) from one pane capture.  Returns the step result
and whether an interactive UI is visible after processing. -/
def process_pane_probe_task (env : Env) (st : DState) (u : Int)
    (task : MessageTask) : StepRes × Bool :=
  let tid := task.threadId.getD 0
  let wid := task.windowId.getD ""
  if wid = "" then ({ st := st, tr := [], exc := none }, false)
  else if ¬ env.windowFound then
    let r1 := clear_interactive_render st u tid
    let r2 := if task.allowStatus then do_clear_status_message r1.1 u tid
      else (r1.1, [])
    ({ st := r2.1, tr := r1.2 ++ r2.2, exc := none }, false)
  else
    match env.paneText with
    | none => ({ st := st, tr := [], exc := none }, false)
    | some pt =>
      if pt = "" then ({ st := st, tr := [], exc := none }, false)
      else
        match env.interContent with
        | none =>
          let r1 := clear_interactive_render st u tid
          if task.allowStatus then
            match env.statusLine with
            | some sline =>
              if sline = "" then
                ({ st := r1.1, tr := r1.2, exc := none }, false)
              else
                let r2 := process_status_update_task env r1.1 u
                  { taskType := "status_update", text := some sline,
                    windowId := some wid, threadId := task.threadId,
                    source := task.source }
                ({ st := r2.st, tr := r1.2 ++ r2.tr, exc := r2.exc }, false)
            | none => ({ st := r1.1, tr := r1.2, exc := none }, false)
          else ({ st := r1.1, tr := r1.2, exc := none }, false)
        | some nameText =>
          let text := nameText.2.trim
          let fp := interactive_fingerprint wid nameText.1 text
          match dictGet st.interactiveRender (u, tid) with
          | some cur =>
            if cur.2.1 = wid ∧ cur.2.2 = fp then
              ({ st := st, tr := [], exc := none }, true)
            else
              probeRender env st u tid wid fp (some cur)
          | none => probeRender env st u tid wid fp none

/-- Model of `_check_and_send_status`: skip when the queue still has pending tasks,
otherwise run a status-enabled pane probe. -/
def check_and_send_status (env : Env) (st : DState) (u : Int)
    (windowId : String) (threadId : Option Int) : StepRes :=
  if env.queuePending then { st := st, tr := [], exc := none }
  else
    (process_pane_probe_task env st u
      { taskType := "pane_probe", windowId := some windowId,
        threadId := threadId, source := some "status_check",
        allowStatus := true }).1

/-- Model of `_convert_status_to_content`: pop the tracked status message FIRST; if
it belongs to a different window delete it and report no conversion; else
attempt a rich edit, then a plain-text edit; on total failure report no
conversion (the popped tracker entry stays removed). -/
def convert_status_to_content (env : Env) (st : DState) (u tidOr0 : Int)
    (windowId : String) : StepRes × Option Nat :=
  match dictGet st.statusMsgInfo (u, tidOr0) with
  | none => ({ st := st, tr := [], exc := none }, none)
  | some info =>
    let mid := info.1
    let st1 := { st with statusMsgInfo := dictErase st.statusMsgInfo (u, tidOr0) }
    if info.2.1 ≠ windowId then
      ({ st := st1, tr := [.delMsg mid], exc := none }, none)
    else
      match env.convertRich with
      | .ok _ | .noneRes =>
        ({ st := st1, tr := [.editMsg mid], exc := none }, some mid)
      | .retryAfter s =>
        ({ st := st1, tr := [.editMsg mid], exc := some (.retry s) }, none)
      | _ =>
        match env.convertPlain with
        | .ok _ | .noneRes =>
          ({ st := st1, tr := [.editMsg mid, .editMsgPlain mid], exc := none },
           some mid)
        | .retryAfter s =>
          ({ st := st1, tr := [.editMsg mid, .editMsgPlain mid],
             exc := some (.retry s) }, none)
        | _ =>
          ({ st := st1, tr := [.editMsg mid, .editMsgPlain mid], exc := none },
           none)

/-- The per-part send loop of `_process_content_task` step 2: on the first
part try to convert the tracked status message into the content; otherwise
(and for every later part) send via `send_with_fallback`, remembering the
last delivered message id. -/
def content_send_loop (env : Env) (u tidOr0 : Int) (wid : String) :
    List String → Bool → DState → Option Nat → StepRes × Option Nat
  | [], _, st, lastMsg => ({ st := st, tr := [], exc := none }, lastMsg)
  | _part :: rest, firstPart, st, lastMsg =>
    if firstPart then
      let c := convert_status_to_content env st u tidOr0 wid
      match c.1.exc with
      | some e => ({ st := c.1.st, tr := c.1.tr, exc := some e }, none)
      | none =>
        match c.2 with
        | some mid =>
          let r := content_send_loop env u tidOr0 wid rest false c.1.st (some mid)
          ({ st := r.1.st, tr := c.1.tr ++ r.1.tr, exc := r.1.exc }, r.2)
        | none =>
          let sw := send_with_fallback env
          match sw.2.2 with
          | some e => ({ st := c.1.st, tr := c.1.tr ++ sw.1, exc := some e }, none)
          | none =>
            let newLast := match sw.2.1 with
              | some m => some m
              | none => lastMsg
            let r := content_send_loop env u tidOr0 wid rest false c.1.st newLast
            ({ st := r.1.st, tr := c.1.tr ++ sw.1 ++ r.1.tr, exc := r.1.exc },
             r.2)
    else
      let sw := send_with_fallback env
      match sw.2.2 with
      | some e => ({ st := st, tr := sw.1, exc := some e }, none)
      | none =>
        let newLast := match sw.2.1 with
          | some m => some m
          | none => lastMsg
        let r := content_send_loop env u tidOr0 wid rest false st newLast
        ({ st := r.1.st, tr := sw.1 ++ r.1.tr, exc := r.1.exc }, r.2)

/-- Result of step 1 of `_process_content_task` (the tool_result edit path):
an escaped exception, an early return that still sends images and runs the
status check, or a fall-through into the send loop. -/
inductive Step1Out
  | raised (r : StepRes)
  | finishAfterImages (st : DState) (tr : List Call)
  | fall (st : DState) (tr : List Call)

/-- Step 1 of `_process_content_task`: for a `tool_result` task with a
truthy `tool_use_id`, pop the recorded tool-message id; if one exists,
clear the status message and try the rich edit, then the plain-text edit;
"not modified" counts as success; if both edits fail fall through to
sending the content as a new message. -/
def tool_result_edit_step (env : Env) (st : DState) (u : Int)
    (task : MessageTask) : Step1Out :=
  if task.contentType = "tool_result" then
    match task.toolUseId with
    | none => .fall st []
    | some id =>
      if id = "" then .fall st []
      else
        let tid := task.threadId.getD 0
        match dictGet st.toolMsgIds (id, u, tid) with
        | none => .fall { st with toolMsgIds := dictErase st.toolMsgIds (id, u, tid) } []
        | some mid =>
          let st1 := { st with toolMsgIds := dictErase st.toolMsgIds (id, u, tid) }
          let c := do_clear_status_message st1 u tid
          match env.editToolRich with
          | .ok _ | .noneRes => .finishAfterImages c.1 (c.2 ++ [.editMsg mid])
          | .notModified => .finishAfterImages c.1 (c.2 ++ [.editMsg mid])
          | .retryAfter s =>
            .raised { st := c.1, tr := c.2 ++ [.editMsg mid],
                      exc := some (.retry s) }
          | .err =>
            match env.editToolPlain with
            | .ok _ | .noneRes =>
              .finishAfterImages c.1 (c.2 ++ [.editMsg mid, .editMsgPlain mid])
            | .notModified =>
              .finishAfterImages c.1 (c.2 ++ [.editMsg mid, .editMsgPlain mid])
            | .retryAfter s =>
              .raised { st := c.1, tr := c.2 ++ [.editMsg mid, .editMsgPlain mid],
                        exc := some (.retry s) }
            | .err => .fall c.1 (c.2 ++ [.editMsg mid, .editMsgPlain mid])
  else .fall st []

/-- Images-then-status tail shared by the return paths of
`_process_content_task`. -/
def imagesThenStatus (env : Env) (st : DState) (u : Int) (task : MessageTask)
    (wid : String) (trPre : List Call) : StepRes :=
  let im := send_task_images env task
  match im.2 with
  | some e => { st := st, tr := trPre ++ im.1, exc := some e }
  | none =>
    let cs := check_and_send_status env st u wid task.threadId
    { st := cs.st, tr := trPre ++ im.1 ++ cs.tr, exc := cs.exc }

/-- Model of `_process_content_task`: tool_result edit path, per-part send loop with
status-to-content conversion, tool_use message-id recording, the synchronous
post-tool_use pane probe, image sending and the final status check. -/
def process_content_task (env : Env) (st : DState) (u : Int)
    (task : MessageTask) : StepRes :=
  let wid := task.windowId.getD ""
  let tid := task.threadId.getD 0
  match tool_result_edit_step env st u task with
  | .raised r => r
  | .finishAfterImages st1 tr1 => imagesThenStatus env st1 u task wid tr1
  | .fall st1 tr1 =>
    let lp := content_send_loop env u tid wid task.parts true st1 none
    match lp.1.exc with
    | some e => { st := lp.1.st, tr := tr1 ++ lp.1.tr, exc := some e }
    | none =>
      let st2 :=
        match lp.2, task.toolUseId with
        | some m, some id =>
          if m ≠ 0 ∧ id ≠ "" ∧ task.contentType = "tool_use" then
            { lp.1.st with toolMsgIds := dictSet lp.1.st.toolMsgIds (id, u, tid) m }
          else lp.1.st
        | _, _ => lp.1.st
      if task.contentType = "tool_use" ∧ wid ≠ "" then
        let pr := process_pane_probe_task env st2 u
          { taskType := "pane_probe", windowId := task.windowId,
            threadId := task.threadId, source := some "tool_use",
            allowStatus := false }
        match pr.1.exc with
        | some e =>
          { st := pr.1.st, tr := tr1 ++ lp.1.tr ++ pr.1.tr, exc := some e }
        | none =>
          if pr.2 then
            let im := send_task_images env task
            { st := pr.1.st, tr := tr1 ++ lp.1.tr ++ pr.1.tr ++ im.1,
              exc := im.2 }
          else
            imagesThenStatus env pr.1.st u task wid (tr1 ++ lp.1.tr ++ pr.1.tr)
      else
        imagesThenStatus env st2 u task wid (tr1 ++ lp.1.tr)

/-- A benign environment: every call succeeds with message id 0, no window
is found, no pane content, and the queue reports pending tasks (so the
final status check is skipped). -/
def quietEnv : Env :=
  { sendRich := .ok 0, sendPlain := .ok 0, typingRes := .ok 0,
    statusEditRich := .ok 0, statusEditPlain := .ok 0,
    convertRich := .ok 0, convertPlain := .ok 0,
    interEdit := .ok 0, interSend := .ok 0,
    editToolRich := .ok 0, editToolPlain := .ok 0,
    photoRes := .ok 0,
    windowFound := false, paneText := none, interContent := none,
    statusLine := none, queuePending := true }

def isSend : Call → Bool
  | .sendMsg => true
  | .sendMsgPlain => true
  | .sendMsgInter => true
  | _ => false

def isEdit : Call → Bool
  | .editMsg _ => true
  | .editMsgPlain _ => true
  | _ => false

def countSends (tr : List Call) : Nat := (tr.filter isSend).length

def countEdits (tr : List Call) : Nat := (tr.filter isEdit).length

/-- Number of chat-API delivery attempts (sends plus edits) in a trace. -/
def countAttempts (tr : List Call) : Nat :=
  (tr.filter (fun c => isSend c || isEdit c)).length

/-! ## Merge engine eligibility and the merged task's delivery (claim C2) -/

/-- Counterexample to C2: two one-part plain-text content tasks within the
3800-character budget ARE collapsed by the merge engine into one task
carrying `["A", "B"]` (merge count 1), but processing that merged task
performs TWO chat-API sends — `_process_content_task` sends each merged part
as its own message — so the pair is not "delivered as exactly one send". -/
theorem merged_pair_two_sends_counterexample :
    (merge_content_tasks
        { taskType := "content", parts := ["A"], contentType := "text" }
        [{ taskType := "content", parts := ["B"], contentType := "text" }]).2.1
      = 1 ∧
    (merge_content_tasks
        { taskType := "content", parts := ["A"], contentType := "text" }
        [{ taskType := "content", parts := ["B"], contentType := "text" }]).1.parts
      = ["A", "B"] ∧
    countSends (process_content_task { quietEnv with sendRich := .ok 9 }
        ⟨[], [], []⟩ 1
        (merge_content_tasks
          { taskType := "content", parts := ["A"], contentType := "text" }
          [{ taskType := "content", parts := ["B"], contentType := "text" }]).1).tr
      = 2 := by
  exact ⟨by decide, by decide, by decide⟩

/-- C2 (amended): the merge engine absorbs the next queued task into a
just-dequeued content task exactly when the candidate is a content task with
the same windowId and thread, neither task carries a delivery
acknowledgement, neither has contentType `tool_use` or `tool_result`, and
the combined part length stays within the 3800-character budget;
consequently two back-to-back tool_use content tasks are never merged, while
two plain-text content tasks with combined length within the budget are
collapsed into exactly one delivered task carrying both tasks' parts in
original order — but the content executor still sends each part as its own
message, so the merged pair yields one delivery of two chat-API sends, not
one send. -/
theorem merge_iff_eligible_and_budget :
    ∀ (first cand : MessageTask) (rest : List MessageTask),
      (0 < (merge_content_tasks first (cand :: rest)).2.1 ↔
        (cand.taskType = "content" ∧ cand.windowId = first.windowId ∧
          cand.threadId = first.threadId ∧
          first.completionFut = false ∧ cand.completionFut = false ∧
          first.contentType ≠ "tool_use" ∧ first.contentType ≠ "tool_result" ∧
          cand.contentType ≠ "tool_use" ∧ cand.contentType ≠ "tool_result" ∧
          partsLen first.parts + partsLen cand.parts ≤ MERGE_MAX_LENGTH)) ∧
      (first.contentType = "tool_use" → cand.contentType = "tool_use" →
        merge_content_tasks first (cand :: rest) = (first, 0, cand :: rest)) ∧
      (first.taskType = "content" → cand.taskType = "content" →
        first.contentType = "text" → cand.contentType = "text" →
        cand.windowId = first.windowId → cand.threadId = first.threadId →
        first.completionFut = false → cand.completionFut = false →
        partsLen first.parts + partsLen cand.parts ≤ MERGE_MAX_LENGTH →
        ((workerRun [first, cand]).map Prod.fst).map MessageTask.parts =
          [first.parts ++ cand.parts]) ∧
      (∀ (env : Env) (st : DState) (u : Int) (m : Nat) (p1 p2 : String),
        first.taskType = "content" → cand.taskType = "content" →
        first.contentType = "text" → cand.contentType = "text" →
        cand.windowId = first.windowId → cand.threadId = first.threadId →
        first.completionFut = false → cand.completionFut = false →
        first.parts = [p1] → cand.parts = [p2] →
        partsLen first.parts + partsLen cand.parts ≤ MERGE_MAX_LENGTH →
        env.sendRich = .ok m → env.queuePending = true →
        dictGet st.statusMsgInfo (u, first.threadId.getD 0) = none →
        countSends (process_content_task env st u
            (merge_content_tasks first [cand]).1).tr = 2) := by
  intro first cand rest
  refine ⟨?_, ?_, ?_, ?_⟩
  · constructor
    · intro h
      by_cases hm : can_merge_tasks first cand
      · by_cases hl :
            partsLen first.parts + partsLen cand.parts > MERGE_MAX_LENGTH
        · exfalso
          unfold merge_content_tasks at h
          simp [mergeLoop, hm, hl] at h
        · have hconds := hm
          unfold can_merge_tasks at hconds
          by_cases h1 : first.windowId = cand.windowId
          · by_cases h2 : first.threadId = cand.threadId
            · by_cases h3 : cand.taskType = "content"
              · by_cases h4 : first.completionFut || cand.completionFut
                · simp [h1, h2, h3, h4] at hconds
                · by_cases h5a : first.contentType = "tool_use"
                  · simp [h1, h2, h3, h4, h5a] at hconds
                  · by_cases h5b : first.contentType = "tool_result"
                    · simp [h1, h2, h3, h4, h5a, h5b] at hconds
                    · by_cases h6a : cand.contentType = "tool_use"
                      · simp [h1, h2, h3, h4, h5a, h5b, h6a] at hconds
                      · by_cases h6b : cand.contentType = "tool_result"
                        · simp [h1, h2, h3, h4, h5a, h5b, h6a, h6b] at hconds
                        · simp only [Bool.or_eq_true] at h4
                          push_neg at h4
                          refine ⟨h3, h1.symm, h2.symm, ?_, ?_,
                            h5a, h5b, h6a, h6b, by omega⟩
                          · simpa using h4.1
                          · simpa using h4.2
              · simp [h1, h2, h3] at hconds
            · simp [h1, h2] at hconds
          · simp [h1] at hconds
      · exfalso
        unfold merge_content_tasks at h
        simp [mergeLoop, hm] at h
    · rintro ⟨h3, h1, h2, h4a, h4b, h5a, h5b, h6a, h6b, hl⟩
      have hm : can_merge_tasks first cand = true := by
        unfold can_merge_tasks
        simp [h1, h2, h3, h4a, h4b, h5a, h5b, h6a, h6b]
      have hl2 : ¬ (partsLen first.parts + partsLen cand.parts >
          MERGE_MAX_LENGTH) := by omega
      unfold merge_content_tasks
      simp [mergeLoop, hm, hl2]
  · intro h5 h6
    have hm : can_merge_tasks first cand = false := by
      unfold can_merge_tasks
      by_cases h1 : first.windowId = cand.windowId <;>
        by_cases h2 : first.threadId = cand.threadId <;>
        by_cases h3 : cand.taskType = "content" <;>
        by_cases h4 : first.completionFut || cand.completionFut <;>
        simp [h1, h2, h3, h4, h5]
    unfold merge_content_tasks
    simp [mergeLoop, hm]
  · intro ht1 ht2 hc1 hc2 h1 h2 h4a h4b hl
    have hm : can_merge_tasks first cand = true := by
      unfold can_merge_tasks
      simp [h1, h2, ht2, h4a, h4b, hc1, hc2]
    have hl2 : ¬ (partsLen first.parts + partsLen cand.parts >
        MERGE_MAX_LENGTH) := by omega
    have hloop : mergeLoop first (partsLen first.parts) [cand] =
        (cand.parts, 1, []) := by
      simp [mergeLoop, hm, hl2]
    have hmerge : merge_content_tasks first [cand] =
        ({ taskType := "content"
           windowId := first.windowId
           parts := first.parts ++ cand.parts
           toolUseId := first.toolUseId
           contentType := first.contentType
           threadId := first.threadId }, 1, []) := by
      unfold merge_content_tasks
      rw [hloop]
      simp
    simp only [workerRun]
    rw [if_pos ht1]
    rw [hmerge]
    simp [workerRun]
  · intro env st u m p1 p2 ht1 ht2 hc1 hc2 h1 h2 h4a h4b hp1 hp2 hl hsr hqp
      hstat
    have hm : can_merge_tasks first cand = true := by
      unfold can_merge_tasks
      simp [h1, h2, ht2, h4a, h4b, hc1, hc2]
    have hl2 : ¬ (partsLen first.parts + partsLen cand.parts >
        MERGE_MAX_LENGTH) := by omega
    have hloop : mergeLoop first (partsLen first.parts) [cand] =
        (cand.parts, 1, []) := by
      simp [mergeLoop, hm, hl2]
    have hmerge : merge_content_tasks first [cand] =
        ({ taskType := "content"
           windowId := first.windowId
           parts := first.parts ++ cand.parts
           toolUseId := first.toolUseId
           contentType := first.contentType
           threadId := first.threadId }, 1, []) := by
      unfold merge_content_tasks
      rw [hloop]
      simp
    rw [hmerge]
    cases htu : first.toolUseId with
    | none =>
      simp [process_content_task, tool_result_edit_step, content_send_loop,
        convert_status_to_content, send_with_fallback, imagesThenStatus,
        send_task_images, check_and_send_status, do_clear_status_message,
        countSends, isSend, hc1, hp1, hp2, hsr, hqp, hstat]
    | some tid0 =>
      simp [process_content_task, tool_result_edit_step, content_send_loop,
        convert_status_to_content, send_with_fallback, imagesThenStatus,
        send_task_images, check_and_send_status, do_clear_status_message,
        countSends, isSend, hc1, hp1, hp2, hsr, hqp, hstat]

/-- Witness for `merge_iff_eligible_and_budget` at concrete tasks: the
merged `["A"] ++ ["B"]` task is processed with two sends. -/
theorem merge_iff_eligible_and_budget_witness :
    countSends (process_content_task { quietEnv with sendRich := .ok 9 }
        ⟨[], [], []⟩ 1
        (merge_content_tasks
          { taskType := "content", parts := ["A"], contentType := "text" }
          [{ taskType := "content", parts := ["B"], contentType := "text" }]).1).tr
      = 2 := by
  exact (merge_iff_eligible_and_budget
    { taskType := "content", parts := ["A"], contentType := "text" }
    { taskType := "content", parts := ["B"], contentType := "text" }
    []).2.2.2 { quietEnv with sendRich := .ok 9 } ⟨[], [], []⟩ 1 9 "A" "B"
    rfl rfl rfl rfl rfl rfl rfl rfl rfl rfl (by decide) rfl rfl rfl

/-- C9: merge eligibility ignores image attachments, and whenever the merge
engine absorbs at least one task the synthetic merged task is constructed
without image attachments, text, source, or completion acknowledgement —
so the image-sending step performs no chat-API call for it and any images
carried by the base or absorbed tasks are silently dropped. -/
theorem merged_task_drops_images :
    ∀ (base cand : MessageTask)
      (x y : Option (List (String × List Nat)))
      (first : MessageTask) (q : List MessageTask) (env : Env),
      can_merge_tasks { base with imageData := x }
          { cand with imageData := y } =
        can_merge_tasks base cand ∧
      (0 < (merge_content_tasks first q).2.1 →
        (merge_content_tasks first q).1.imageData = none ∧
        (merge_content_tasks first q).1.text = none ∧
        (merge_content_tasks first q).1.source = none ∧
        (merge_content_tasks first q).1.completionFut = false ∧
        send_task_images env (merge_content_tasks first q).1 = ([], none)) := by
  intro base cand x y first q env
  constructor
  · rfl
  · intro h
    unfold merge_content_tasks at h ⊢
    by_cases h0 : (mergeLoop first (partsLen first.parts) q).2.1 = 0
    · rw [if_pos h0] at h
      simp at h
    · rw [if_neg h0]
      exact ⟨rfl, rfl, rfl, rfl, rfl⟩

/-- Witness for `merged_task_drops_images` at two concrete mergeable tasks,
the base carrying an image attachment that the merged task loses. -/
theorem merged_task_drops_images_witness :
    0 < (merge_content_tasks
        { taskType := "content", parts := ["A"], contentType := "text",
          imageData := some [("image/png", [1, 2])] }
        [{ taskType := "content", parts := ["B"], contentType := "text" }]).2.1 ∧
    (merge_content_tasks
        { taskType := "content", parts := ["A"], contentType := "text",
          imageData := some [("image/png", [1, 2])] }
        [{ taskType := "content", parts := ["B"], contentType := "text" }]).1.imageData
      = none := by
  refine ⟨by decide, ?_⟩
  exact ((merged_task_drops_images
    { taskType := "content", parts := ["A"], contentType := "text",
      imageData := some [("image/png", [1, 2])] }
    { taskType := "content", parts := ["B"], contentType := "text" }
    none none
    { taskType := "content", parts := ["A"], contentType := "text",
      imageData := some [("image/png", [1, 2])] }
    [{ taskType := "content", parts := ["B"], contentType := "text" }]
    quietEnv).2 (by decide)).1

/-- C10: status-to-content conversion pops the tracked status entry before
attempting any edit; on total conversion failure (both the rich and the
plain-text edit fail) it reports no conversion while the tracker entry
stays removed, so a subsequent status-clear finds nothing tracked and
performs no delete call (the stale status message stays in the chat). -/
theorem convert_failure_leaves_entry_removed :
    ∀ (env : Env) (st : DState) (u tid0 : Int) (mid : Nat)
      (wid lastText : String),
      dictGet st.statusMsgInfo (u, tid0) = some (mid, wid, lastText) →
      env.convertRich = .err → env.convertPlain = .err →
      (convert_status_to_content env st u tid0 wid).2 = none ∧
      dictGet
          (convert_status_to_content env st u tid0 wid).1.st.statusMsgInfo
          (u, tid0) = none ∧
      do_clear_status_message
          (convert_status_to_content env st u tid0 wid).1.st u tid0 =
        ((convert_status_to_content env st u tid0 wid).1.st, []) := by
  intro env st u tid0 mid wid lastText hget hr hp
  have hconv : convert_status_to_content env st u tid0 wid =
      ({ st := { st with statusMsgInfo := dictErase st.statusMsgInfo (u, tid0) },
         tr := [.editMsg mid, .editMsgPlain mid], exc := none }, none) := by
    unfold convert_status_to_content
    rw [hget]
    simp [hr, hp]
  rw [hconv]
  refine ⟨rfl, ?_, ?_⟩
  · exact dictGet_dictErase _ _
  · unfold do_clear_status_message
    rw [show dictGet (dictErase st.statusMsgInfo (u, tid0)) (u, tid0) = none from
      dictGet_dictErase _ _]

/-- Witness for `convert_failure_leaves_entry_removed` at a concrete state. -/
theorem convert_failure_leaves_entry_removed_witness :
    dictGet ([((1, 0), (5, "w", "old"))] :
        List ((Int × Int) × (Nat × String × String))) (1, 0) =
      some (5, "w", "old") ∧
    (convert_status_to_content
      { quietEnv with convertRich := .err, convertPlain := .err }
      ⟨[], [((1, 0), (5, "w", "old"))], []⟩ 1 0 "w").2 = none := by
  refine ⟨by decide, ?_⟩
  exact (convert_failure_leaves_entry_removed
    { quietEnv with convertRich := .err, convertPlain := .err }
    ⟨[], [((1, 0), (5, "w", "old"))], []⟩ 1 0 5 "w" "old"
    (by decide) rfl rfl).1

/-! ## Pane-probe idempotence (claim C6) -/

theorem probe_noop (env : Env) (st : DState) (u : Int) (th : Option Int)
    (w pt name ctext : String) (mid : Nat)
    (hwne : w ≠ "") (hfound : env.windowFound = true)
    (hpt : env.paneText = some pt) (hptne : pt ≠ "")
    (hcontent : env.interContent = some (name, ctext))
    (hcur : dictGet st.interactiveRender (u, th.getD 0) =
      some (mid, w, interactive_fingerprint w name ctext.trim)) :
    process_pane_probe_task env st u
        { taskType := "pane_probe", windowId := some w, threadId := th } =
      ({ st := st, tr := [], exc := none }, true) := by
  unfold process_pane_probe_task
  simp [hwne, hfound, hpt, hptne, hcontent, hcur]

theorem probe_first_send (env : Env) (st : DState) (u : Int) (th : Option Int)
    (w pt name ctext : String) (m : Nat)
    (hwne : w ≠ "") (hfound : env.windowFound = true)
    (hpt : env.paneText = some pt) (hptne : pt ≠ "")
    (hcontent : env.interContent = some (name, ctext))
    (hsend : env.interSend = .ok m)
    (hcur : dictGet st.interactiveRender (u, th.getD 0) = none)
    (hstat : dictGet st.statusMsgInfo (u, th.getD 0) = none) :
    process_pane_probe_task env st u
        { taskType := "pane_probe", windowId := some w, threadId := th } =
      ({ st := { st with interactiveRender := dictSet st.interactiveRender (u, th.getD 0) (m, w, interactive_fingerprint w name ctext.trim) },
         tr := [.sendMsgInter], exc := none }, true) := by
  unfold process_pane_probe_task probeRender probeSend do_clear_status_message
  simp [hwne, hfound, hpt, hptne, hcontent, hsend, hcur, hstat]

/-- Three successive runs of the pane-probe executor over the same
environment: the combined trace and the three visibility results. -/
def probeThrice (env : Env) (st : DState) (u : Int) (task : MessageTask) :
    List Call × (Bool × Bool × Bool) :=
  ((process_pane_probe_task env st u task).1.tr ++
     (process_pane_probe_task env
       (process_pane_probe_task env st u task).1.st u task).1.tr ++
     (process_pane_probe_task env
       (process_pane_probe_task env
         (process_pane_probe_task env st u task).1.st u task).1.st u
       task).1.tr,
   ((process_pane_probe_task env st u task).2,
    (process_pane_probe_task env
      (process_pane_probe_task env st u task).1.st u task).2,
    (process_pane_probe_task env
      (process_pane_probe_task env
        (process_pane_probe_task env st u task).1.st u task).1.st u
      task).2))

/-- C6: the pane-probe executor is idempotent with respect to the content
fingerprint: when a tracked render exists for the same window with the same
fingerprint the probe performs no chat-API call and reports visible; and
running the probe three times in a row over pane text producing the same
fingerprint, starting untracked, yields exactly one send and zero edits,
with all three runs reporting visible. -/
theorem probe_fingerprint_idempotent :
    ∀ (env : Env) (st : DState) (u : Int) (th : Option Int)
      (w pt name ctext : String) (mid m : Nat),
      w ≠ "" → env.windowFound = true → env.paneText = some pt → pt ≠ "" →
      env.interContent = some (name, ctext) →
      ((dictGet st.interactiveRender (u, th.getD 0) =
          some (mid, w, interactive_fingerprint w name ctext.trim) →
        process_pane_probe_task env st u
            { taskType := "pane_probe", windowId := some w, threadId := th } =
          ({ st := st, tr := [], exc := none }, true)) ∧
       (env.interSend = .ok m →
        dictGet st.interactiveRender (u, th.getD 0) = none →
        dictGet st.statusMsgInfo (u, th.getD 0) = none →
        countSends (probeThrice env st u
            { taskType := "pane_probe", windowId := some w,
              threadId := th }).1 = 1 ∧
        countEdits (probeThrice env st u
            { taskType := "pane_probe", windowId := some w,
              threadId := th }).1 = 0 ∧
        (probeThrice env st u
            { taskType := "pane_probe", windowId := some w,
              threadId := th }).2 = (true, true, true))) := by
  intro env st u th w pt name ctext mid m hwne hfound hpt hptne hcontent
  constructor
  · intro hcur
    exact probe_noop env st u th w pt name ctext mid hwne hfound hpt hptne
      hcontent hcur
  · intro hsend hcur hstat
    have h1 := probe_first_send env st u th w pt name ctext m hwne hfound hpt
      hptne hcontent hsend hcur hstat
    have hcur1 : dictGet
        ({ st with interactiveRender := dictSet st.interactiveRender (u, th.getD 0) (m, w, interactive_fingerprint w name ctext.trim) } :
          DState).interactiveRender (u, th.getD 0) =
        some (m, w, interactive_fingerprint w name ctext.trim) :=
      dictGet_dictSet _ _ _
    have h2 := probe_noop env
      { st with interactiveRender := dictSet st.interactiveRender (u, th.getD 0) (m, w, interactive_fingerprint w name ctext.trim) }
      u th w pt name ctext m hwne hfound hpt hptne hcontent hcur1
    unfold probeThrice
    rw [h1]
    simp only
    rw [h2]
    simp only
    rw [h2]
    refine ⟨?_, ?_, rfl⟩
    · simp [countSends, isSend]
    · simp [countEdits, isEdit]

/-- Witness for `probe_fingerprint_idempotent` at a concrete window and
pane content. -/
theorem probe_fingerprint_idempotent_witness :
    countSends (probeThrice
        { quietEnv with
          windowFound := true
          paneText := some "p"
          interContent := some ("menu", "  hi ")
          interSend := .ok 42 }
        ⟨[], [], []⟩ 1
        { taskType := "pane_probe", windowId := some "w",
          threadId := some 3 }).1 = 1 := by
  exact ((probe_fingerprint_idempotent
    { quietEnv with
      windowFound := true
      paneText := some "p"
      interContent := some ("menu", "  hi ")
      interSend := .ok 42 }
    ⟨[], [], []⟩ 1 (some 3) "w" "p" "menu" "  hi " 0 42
    (by decide) rfl rfl (by decide) rfl).2 rfl rfl rfl).1

/-! ## Tool-use / tool-result pairing (claim C7) -/

/-- C7: a tool_use content task whose send succeeds produces exactly one
send and records the delivered message id under (toolUseId, conversation
key); a later tool_result task with the matching toolUseId produces exactly
one edit — of that same recorded message id — and no send, and the recorded
entry is removed exactly once, by the consuming tool_result (the map no
longer contains the key afterwards). -/
theorem tool_use_then_tool_result_edits_same_message :
    ∀ (env envR : Env) (st stR : DState) (u : Int) (th : Option Int)
      (id w p q : String) (m mid k : Nat),
      (env.sendRich = .ok m → m ≠ 0 → id ≠ "" → w ≠ "" →
        env.queuePending = true → env.windowFound = false →
        dictGet st.statusMsgInfo (u, th.getD 0) = none →
        dictGet st.interactiveRender (u, th.getD 0) = none →
        (process_content_task env st u
            { taskType := "content", windowId := some w, parts := [p],
              toolUseId := some id, contentType := "tool_use",
              threadId := th }).tr = [.sendMsg] ∧
        dictGet (process_content_task env st u
            { taskType := "content", windowId := some w, parts := [p],
              toolUseId := some id, contentType := "tool_use",
              threadId := th }).st.toolMsgIds (id, u, th.getD 0) = some m) ∧
      (envR.editToolRich = .ok k → id ≠ "" → envR.queuePending = true →
        dictGet stR.toolMsgIds (id, u, th.getD 0) = some mid →
        dictGet stR.statusMsgInfo (u, th.getD 0) = none →
        (process_content_task envR stR u
            { taskType := "content", windowId := some w, parts := [q],
              toolUseId := some id, contentType := "tool_result",
              threadId := th }).tr = [.editMsg mid] ∧
        countSends (process_content_task envR stR u
            { taskType := "content", windowId := some w, parts := [q],
              toolUseId := some id, contentType := "tool_result",
              threadId := th }).tr = 0 ∧
        dictGet (process_content_task envR stR u
            { taskType := "content", windowId := some w, parts := [q],
              toolUseId := some id, contentType := "tool_result",
              threadId := th }).st.toolMsgIds (id, u, th.getD 0) = none) := by
  intro env envR st stR u th id w p q m mid k
  constructor
  · intro hsr hm hid hwne hqp hwf hstat hir
    have hstep : process_content_task env st u
        { taskType := "content", windowId := some w, parts := [p],
          toolUseId := some id, contentType := "tool_use", threadId := th } =
        { st := { st with toolMsgIds := dictSet st.toolMsgIds (id, u, th.getD 0) m },
          tr := [.sendMsg], exc := none } := by
      simp [process_content_task, tool_result_edit_step, content_send_loop,
        convert_status_to_content, send_with_fallback, imagesThenStatus,
        send_task_images, check_and_send_status, process_pane_probe_task,
        clear_interactive_render, do_clear_status_message,
        hsr, hm, hid, hwne, hqp, hwf, hstat, hir]
    rw [hstep]
    exact ⟨rfl, dictGet_dictSet _ _ _⟩
  · intro her hid hqp htool hstat
    have hstep : process_content_task envR stR u
        { taskType := "content", windowId := some w, parts := [q],
          toolUseId := some id, contentType := "tool_result",
          threadId := th } =
        { st := { stR with toolMsgIds := dictErase stR.toolMsgIds (id, u, th.getD 0) },
          tr := [.editMsg mid], exc := none } := by
      simp [process_content_task, tool_result_edit_step, imagesThenStatus,
        send_task_images, check_and_send_status, do_clear_status_message,
        her, hid, hqp, htool, hstat]
    rw [hstep]
    refine ⟨rfl, by simp [countSends, isSend], ?_⟩
    exact dictGet_dictErase _ _

/-- Witness for `tool_use_then_tool_result_edits_same_message` at a
concrete pair of tasks. -/
theorem tool_use_then_tool_result_witness :
    (process_content_task { quietEnv with sendRich := .ok 999 }
        ⟨[], [], []⟩ 1
        { taskType := "content", windowId := some "w", parts := ["x"],
          toolUseId := some "t1", contentType := "tool_use",
          threadId := some 5 }).tr = [.sendMsg] ∧
    (process_content_task quietEnv
        ⟨[(("t1", 1, 5), 999)], [], []⟩ 1
        { taskType := "content", windowId := some "w", parts := ["y"],
          toolUseId := some "t1", contentType := "tool_result",
          threadId := some 5 }).tr = [.editMsg 999] := by
  constructor
  · exact ((tool_use_then_tool_result_edits_same_message
      { quietEnv with sendRich := .ok 999 } quietEnv ⟨[], [], []⟩
      ⟨[(("t1", 1, 5), 999)], [], []⟩ 1 (some 5) "t1" "w" "x" "y"
      999 999 0).1 rfl (by decide) (by decide) (by decide) rfl rfl
      (by decide) (by decide)).1
  · exact ((tool_use_then_tool_result_edits_same_message
      { quietEnv with sendRich := .ok 999 } quietEnv ⟨[], [], []⟩
      ⟨[(("t1", 1, 5), 999)], [], []⟩ 1 (some 5) "t1" "w" "x" "y"
      999 999 0).2 rfl (by decide) rfl (by decide) (by decide)).1

/-! ## Retry policy (claim C4) -/

/-- Counterexample to C4: a tool_result task with a recorded edit target
whose rich edit and plain-text fallback edit both fail is NOT marked failed
after the fallback — the code falls through to sending the content as a new
message, a third delivery attempt, contradicting the at-most-two-attempts
policy. -/
theorem at_most_two_attempts_counterexample :
    (process_content_task
        { quietEnv with
          editToolRich := .err
          editToolPlain := .err
          sendRich := .ok 9 }
        ⟨[(("t1", 1, 0), 7)], [], []⟩ 1
        { taskType := "content", contentType := "tool_result",
          toolUseId := some "t1", parts := ["r"],
          windowId := some "w" }).tr
      = [.editMsg 7, .editMsgPlain 7, .sendMsg] ∧
    2 < countAttempts [.editMsg 7, .editMsgPlain 7, .sendMsg] := by
  exact ⟨by decide, by decide⟩

/-- C4 (amended): a send degrades under the at-most-two-attempts policy —
any `send_with_fallback` call makes at most two delivery attempts, and on a
transient rich-send error it is retried exactly once via the plain-text
fallback; if that also fails the send reports no message and raises nothing
(the worker simply continues).  The tool_result EDIT path, however, is not
covered by that policy: when both the rich and the plain edit of the
recorded message fail, the task falls through to being sent as a brand-new
message via the send path. -/
theorem send_fallback_policy_and_tool_result_fallthrough :
    (∀ env : Env, countAttempts (send_with_fallback env).1 ≤ 2) ∧
    (∀ env : Env, env.sendRich = .err → env.sendPlain = .err →
      send_with_fallback env = ([.sendMsg, .sendMsgPlain], none, none)) ∧
    (∀ (st : DState) (u : Int) (th : Option Int) (id w q : String)
      (mid : Nat),
      id ≠ "" →
      dictGet st.toolMsgIds (id, u, th.getD 0) = some mid →
      dictGet st.statusMsgInfo (u, th.getD 0) = none →
      (process_content_task
          { quietEnv with editToolRich := .err, editToolPlain := .err }
          st u
          { taskType := "content", windowId := some w, parts := [q],
            toolUseId := some id, contentType := "tool_result",
            threadId := th }).tr
        = [.editMsg mid, .editMsgPlain mid, .sendMsg]) := by
  refine ⟨?_, ?_, ?_⟩
  · intro env
    cases h1 : env.sendRich <;> cases h2 : env.sendPlain <;>
      simp [send_with_fallback, h1, h2, countAttempts, isSend, isEdit]
  · intro env h1 h2
    simp [send_with_fallback, h1, h2]
  · intro st u th id w q mid hid htool hstat
    simp [process_content_task, tool_result_edit_step, content_send_loop,
      convert_status_to_content, send_with_fallback, imagesThenStatus,
      send_task_images, check_and_send_status, do_clear_status_message,
      quietEnv, hid, htool, hstat]

/-- Witness for `send_fallback_policy_and_tool_result_fallthrough` at a
concrete environment and state. -/
theorem send_fallback_policy_witness :
    send_with_fallback { quietEnv with sendRich := .err, sendPlain := .err } =
      ([.sendMsg, .sendMsgPlain], none, none) ∧
    (process_content_task
        { quietEnv with editToolRich := .err, editToolPlain := .err }
        ⟨[(("t2", 1, 0), 11)], [], []⟩ 1
        { taskType := "content", windowId := some "w", parts := ["z"],
          toolUseId := some "t2", contentType := "tool_result",
          threadId := none }).tr
      = [.editMsg 11, .editMsgPlain 11, .sendMsg] := by
  constructor
  · exact send_fallback_policy_and_tool_result_fallthrough.2.1
      { quietEnv with sendRich := .err, sendPlain := .err } rfl rfl
  · exact send_fallback_policy_and_tool_result_fallthrough.2.2
      ⟨[(("t2", 1, 0), 11)], [], []⟩ 1 none "t2" "w" "z" 11
      (by decide) (by decide) (by decide)

end CCBot
